import Mathlib

/-!
Verification development for the task-manager web application.

The backing store (two tables) and every request handler of the repository
— `app/api/tasks/route.ts`, `app/api/auth/route.ts`, the user-directory
route (the source file carrying GET over `type=supervisors/supervised/all`
and the role/supervisor-assignment PUT) and `app/api/setup-db/route.ts` —
are embedded as pure Lean functions: a handler takes the store and the
request parameters and returns the HTTP response together with the
(possibly updated) store.

Modelling conventions, applied uniformly:
* A query-string or JSON-body value that may be missing is `Option String`
  (`none` = absent/`undefined`); JS truthiness of such a value is `truthy`.
  Both JS `null` and `undefined` map to `none`, so the strict comparison
  `dbValue !== requestValue` is modelled as inequality on `Option String`;
  the two sides differ only when both are nullish (JS: `null !== undefined`
  is true), a corner no handler input in this development exercises.
* PostgREST/supabase-js `.single()` yields an error (code PGRST116) unless
  the result set has exactly one row; this is modelled by `single`.
  Plain (non-`single`) reads and writes against the in-memory store are
  modelled as always succeeding, so the generic 500 branches that surface
  backend failures are reachable only through a failing `.single()`.
* Database-generated column values (row id defaults, `created_at` defaults,
  the `completed_at` timestamp taken from `new Date()`, and the bcrypt hash)
  are passed in as explicit parameters of the handler functions.
* The joined user columns added by `select("*, users:user_id(...)")` only
  decorate each task row for display; the embedded listing returns the task
  rows themselves.
-/

namespace TM

/-- Row of the `users` table (schema in `app/api/setup-db/route.ts`):
id, unique username, password_hash, role, nullable self-referencing
supervisor_id. The `created_at` column is never read by any handler and is
omitted from the embedding. -/
structure User where
  id : String
  username : String
  password_hash : String
  role : String
  supervisor_id : Option String
deriving DecidableEq

/-- Row of the `tasks` table (schema in `app/api/setup-db/route.ts`):
id, user_id (owner), created_by (creator), title, completed flag, nullable
completed_at, created_at. -/
structure Task where
  id : String
  user_id : String
  created_by : String
  title : String
  completed : Bool
  completed_at : Option String
  created_at : String
deriving DecidableEq

/-- The backing store: the two tables. -/
structure DB where
  users : List User
  tasks : List Task
deriving DecidableEq

/-- A user record with the `password_hash` field stripped, as returned to the
client by the auth handler (`const { password_hash, ...userWithoutPassword }`). -/
structure PublicUser where
  id : String
  username : String
  role : String
  supervisor_id : Option String
deriving DecidableEq

/-- Strip the password hash from a user row. -/
def User.sanitize (u : User) : PublicUser :=
  ⟨u.id, u.username, u.role, u.supervisor_id⟩

/-- The JSON bodies the embedded handlers produce: each constructor is one
response shape occurring in the source (`{ tasks }`, `{ task }` with a single
row, `{ task }` with a row array from a bare `.select()`, `{ user }`,
`{ supervisors }`, `{ users }` with two projections, `{ success: true }`,
the setup-db diagnostic report carrying the four table/RLS flags and four
optional error messages alongside its fixed success/message/instruction
strings, and `{ error }`). -/
inductive Body where
  | tasksB : List Task → Body
  | taskB : Task → Body
  | taskArrB : List Task → Body
  | userB : PublicUser → Body
  | supervisorsB : List (String × String) → Body
  | usersB3 : List (String × String × String) → Body
  | usersB4 : List (String × String × String × Option String) → Body
  | successB : Body
  | setupB : Bool → Bool → Bool → Bool → Option String → Option String → Option String →
      Option String → Body
  | errorB : String → Body
deriving DecidableEq

/-- The body is an `{ error }` object. -/
def Body.isError : Body → Bool
  | .errorB _ => true
  | _ => false

/-- The body is a data object (anything other than `{ error }`). -/
def Body.isData (b : Body) : Bool := ! b.isError

/-- An HTTP response: status code and JSON body. -/
structure Response where
  status : Nat
  body : Body
deriving DecidableEq

/-- PostgREST/supabase-js `.single()`: exactly one row is returned as an
object; zero or several rows produce error PGRST116. -/
def single {α : Type} (l : List α) : Except String α :=
  match l with
  | [x] => .ok x
  | _ => .error "PGRST116"

/-- JS truthiness of an optional string request value: `null`/`undefined` and
the empty string are falsy. -/
def truthy : Option String → Bool
  | none => false
  | some s => ! (s == "")

/-- Append a freshly inserted task row to the store. -/
def insertTask (db : DB) (t : Task) : DB :=
  { db with tasks := db.tasks ++ [t] }

/-- GET `/api/tasks` (tasks/route.ts): list tasks for `userId` according to
`role`; a Manager's listing may be narrowed by `supervisorId`. The branch
order and the early `[]` returns for an empty supervisee set follow the
source. -/
def tasksGET (db : DB) (userId role supervisorId : Option String) : Response :=
  if truthy userId = false then
    ⟨400, .errorB "User ID is required"⟩
  else if role = some "User" then
    ⟨200, .tasksB (db.tasks.filter (fun t => t.user_id == userId.getD ""))⟩
  else if role = some "Supervisor" then
    let supervisedIds :=
      (db.users.filter (fun u => u.supervisor_id == some (userId.getD ""))).map
        (fun u => u.id)
    if supervisedIds.isEmpty then ⟨200, .tasksB []⟩
    else ⟨200, .tasksB (db.tasks.filter (fun t => supervisedIds.contains t.user_id))⟩
  else if role = some "Manager" then
    if truthy supervisorId then
      let supervisedIds :=
        (db.users.filter (fun u => u.supervisor_id == some (supervisorId.getD ""))).map
          (fun u => u.id)
      if supervisedIds.isEmpty then ⟨200, .tasksB []⟩
      else ⟨200, .tasksB (db.tasks.filter (fun t => supervisedIds.contains t.user_id))⟩
    else ⟨200, .tasksB db.tasks⟩
  else
    ⟨200, .tasksB (db.tasks.filter (fun t => t.user_id == userId.getD ""))⟩

/-- POST `/api/tasks` (tasks/route.ts): create a task. The body field
`createdBy` is destructured by the source but never used and is omitted.
`newId`/`newCreatedAt` stand for the database-generated id and `created_at`
defaults of the inserted row. -/
def tasksPOST (db : DB) (title userId role assignedUserId : Option String)
    (newId newCreatedAt : String) : Response × DB :=
  if truthy title = false then
    (⟨400, .errorB "Title is required"⟩, db)
  else if role = some "User" then
    if truthy userId = false then
      (⟨400, .errorB "User ID is required"⟩, db)
    else
      let t : Task :=
        ⟨newId, userId.getD "", userId.getD "", title.getD "", false, none, newCreatedAt⟩
      (⟨200, .taskB t⟩, insertTask db t)
  else if role = some "Supervisor" ∨ role = some "Manager" then
    if truthy assignedUserId = false then
      let t : Task :=
        ⟨newId, userId.getD "", userId.getD "", title.getD "", false, none, newCreatedAt⟩
      (⟨200, .taskArrB [t]⟩, insertTask db t)
    else if role = some "Supervisor" then
      match single (db.users.filter (fun u => u.id == assignedUserId.getD "")) with
      | .error _ => (⟨500, .errorB "Error creating task"⟩, db)
      | .ok target =>
        if ¬ target.supervisor_id = userId then
          (⟨403, .errorB "You can only assign tasks to users you supervise"⟩, db)
        else
          let t : Task :=
            ⟨newId, assignedUserId.getD "", userId.getD "", title.getD "", false, none,
              newCreatedAt⟩
          (⟨200, .taskB t⟩, insertTask db t)
    else
      let t : Task :=
        ⟨newId, assignedUserId.getD "", userId.getD "", title.getD "", false, none,
          newCreatedAt⟩
      (⟨200, .taskB t⟩, insertTask db t)
  else
    if truthy userId = false then
      (⟨400, .errorB "User ID is required"⟩, db)
    else
      let t : Task :=
        ⟨newId, userId.getD "", userId.getD "", title.getD "", false, none, newCreatedAt⟩
      (⟨200, .taskB t⟩, insertTask db t)

/-- The update payload built by PUT `/api/tasks`: each field is present
(`some`) or absent, exactly like the JS object `updatePayload`. -/
structure UpdatePayload where
  completed : Option Bool := none
  completed_at : Option (Option String) := none
deriving DecidableEq

/-- Build the PUT update payload: empty when the request omits `completed`;
otherwise the flag plus the matching `completed_at` value (`now` when the
flag becomes true, SQL NULL when false). -/
def mkPayload (completed : Option Bool) (now : String) : UpdatePayload :=
  match completed with
  | none => {}
  | some b => { completed := some b, completed_at := some (if b then some now else none) }

/-- Apply a PostgREST partial update to a task row: fields absent from the
payload keep their value. -/
def applyUpdate (p : UpdatePayload) (t : Task) : Task :=
  { t with
    completed := p.completed.getD t.completed
    completed_at := p.completed_at.getD t.completed_at }

/-- The tasks table after `update(updatePayload).eq("id", id)`: every row
matching the id is rewritten by the payload. -/
def updatedTasks (db : DB) (tid : String) (completed : Option Bool) (now : String) :
    List Task :=
  db.tasks.map (fun t => if t.id == tid then applyUpdate (mkPayload completed now) t else t)

/-- The `update(...).eq("id", id).select().single()` step of PUT
`/api/tasks`: rewrite every row matching the id, then return the (single)
updated row. -/
def runUpdate (db : DB) (tid : String) (completed : Option Bool) (now : String) :
    Response × DB :=
  match single ((updatedTasks db tid completed now).filter (fun t => t.id == tid)) with
  | .error _ =>
    (⟨500, .errorB "Error updating task"⟩, { db with tasks := updatedTasks db tid completed now })
  | .ok t => (⟨200, .taskB t⟩, { db with tasks := updatedTasks db tid completed now })

/-- PUT `/api/tasks` (tasks/route.ts): toggle a task's completion. The
source's `if (!task) → 404` branch after the fetch is unreachable, because a
missing row makes `.single()` produce the PGRST116 error, which is thrown
and caught as a 500. -/
def tasksPUT (db : DB) (id : Option String) (completed : Option Bool)
    (role userId : Option String) (now : String) : Response × DB :=
  match id with
  | none => (⟨400, .errorB "Task ID is required"⟩, db)
  | some tid =>
    match single (db.tasks.filter (fun t => t.id == tid)) with
    | .error _ => (⟨500, .errorB "Error updating task"⟩, db)
    | .ok task =>
      if role = some "User" ∧ ¬ some task.user_id = userId then
        (⟨403, .errorB "You can only update your own tasks"⟩, db)
      else if role = some "Supervisor" then
        match single (db.users.filter (fun u => u.id == task.user_id)) with
        | .error _ => (⟨500, .errorB "Error updating task"⟩, db)
        | .ok owner =>
          if ¬ owner.supervisor_id = userId then
            (⟨403, .errorB "You can only update tasks for users you supervise"⟩, db)
          else
            runUpdate db tid completed now
      else
        runUpdate db tid completed now

/-- DELETE `/api/tasks` (tasks/route.ts): delete a task by id, with the same
permission checks as PUT. As in PUT, the `if (!task) → 404` branch after the
fetch is unreachable because `.single()` errors (→ 500) on a missing row. -/
def tasksDELETE (db : DB) (id userId role : Option String) : Response × DB :=
  if truthy id = false ∨ truthy userId = false ∨ truthy role = false then
    (⟨400, .errorB "Task ID, User ID, and Role are required"⟩, db)
  else
    let tid := id.getD ""
    let uid := userId.getD ""
    match single (db.tasks.filter (fun t => t.id == tid)) with
    | .error _ => (⟨500, .errorB "Error deleting task"⟩, db)
    | .ok task =>
      if role = some "User" ∧ ¬ task.user_id = uid then
        (⟨403, .errorB "You can only delete your own tasks"⟩, db)
      else if role = some "Supervisor" then
        match single (db.users.filter (fun u => u.id == task.user_id)) with
        | .error _ => (⟨500, .errorB "Error deleting task"⟩, db)
        | .ok owner =>
          if ¬ owner.supervisor_id = some uid then
            (⟨403, .errorB "You can only delete tasks for users you supervise"⟩, db)
          else
            (⟨200, .successB⟩, { db with tasks := db.tasks.filter (fun t => ! (t.id == tid)) })
      else
        (⟨200, .successB⟩, { db with tasks := db.tasks.filter (fun t => ! (t.id == tid)) })

/-- POST `/api/auth` (auth/route.ts): login when `isLogin` is truthy,
otherwise signup. `newId` stands for the database-generated id of an
inserted user; bcrypt hashing is abstracted by `hashFn`, and
`bcrypt.compare(p, h)` by `hashFn p == h`. The source's 500 branch on a
failing insert is unreachable because inserts into the in-memory store
always succeed. -/
def authPOST (db : DB) (username password : Option String) (isLogin : Bool)
    (role supervisorId : Option String) (newId : String) (hashFn : String → String) :
    Response × DB :=
  if truthy username = false ∨ truthy password = false then
    (⟨400, .errorB "Username and password are required"⟩, db)
  else
    let uname := username.getD ""
    let pw := password.getD ""
    if isLogin then
      match single (db.users.filter (fun u => u.username == uname)) with
      | .error _ => (⟨401, .errorB "Invalid username or password"⟩, db)
      | .ok user =>
        if ¬ hashFn pw = user.password_hash then
          (⟨401, .errorB "Invalid username or password"⟩, db)
        else
          (⟨200, .userB user.sanitize⟩, db)
    else
      match single (db.users.filter (fun u => u.username == uname)) with
      | .ok _ => (⟨409, .errorB "Username already exists"⟩, db)
      | .error _ =>
        let roleVal := if truthy role then role.getD "" else "User"
        if truthy supervisorId then
          let sid := supervisorId.getD ""
          match single (db.users.filter (fun u => u.id == sid)) with
          | .error _ => (⟨400, .errorB "Invalid supervisor ID"⟩, db)
          | .ok sup =>
            if ¬ sup.role = "Supervisor" ∧ ¬ sup.role = "Manager" then
              (⟨400, .errorB "Assigned supervisor must have Supervisor or Manager role"⟩, db)
            else
              let newUser : User := ⟨newId, uname, hashFn pw, roleVal, some sid⟩
              (⟨200, .userB newUser.sanitize⟩, { db with users := db.users ++ [newUser] })
        else
          let newUser : User := ⟨newId, uname, hashFn pw, roleVal, none⟩
          (⟨200, .userB newUser.sanitize⟩, { db with users := db.users ++ [newUser] })

/-- GET `/api/auth` (auth/route.ts): list available supervisors, a
supervisor's supervisees, or (for a Manager) all users. -/
def authGET (db : DB) (role userId : Option String) : Response :=
  if role = some "supervisors" then
    ⟨200, .supervisorsB
      ((db.users.filter (fun u => u.role == "Supervisor" || u.role == "Manager")).map
        (fun u => (u.id, u.username)))⟩
  else if role = some "supervised" ∧ truthy userId then
    match single (db.users.filter (fun u => u.id == userId.getD "")) with
    | .error _ => ⟨500, .errorB "Error fetching users"⟩
    | .ok cur =>
      if ¬ cur.role = "Supervisor" ∧ ¬ cur.role = "Manager" then
        ⟨403, .errorB "Unauthorized"⟩
      else
        ⟨200, .usersB3
          ((db.users.filter (fun u => u.supervisor_id == some (userId.getD ""))).map
            (fun u => (u.id, u.username, u.role)))⟩
  else if role = some "all" ∧ truthy userId then
    match single (db.users.filter (fun u => u.id == userId.getD "")) with
    | .error _ => ⟨500, .errorB "Error fetching users"⟩
    | .ok cur =>
      if ¬ cur.role = "Manager" then
        ⟨403, .errorB "Unauthorized"⟩
      else
        ⟨200, .usersB4 (db.users.map (fun u => (u.id, u.username, u.role, u.supervisor_id)))⟩
  else
    ⟨400, .errorB "Invalid request"⟩

/-- GET of the user-directory route (the source file holding the GET/PUT
pair over `type=supervisors/supervised/all`; the spec's list/assign
supervisors and supervised users endpoint): list available supervisors, a
user's supervisees, or (for a Manager) all users. As in the tasks handlers,
the `if (!currentUser) → 404` branch after the `.single()` fetch is
unreachable: a missing row makes `.single()` error, which is thrown and
caught as the 500. -/
def usersGET (db : DB) (requestType userId : Option String) : Response :=
  if requestType = some "supervisors" then
    ⟨200, .supervisorsB
      ((db.users.filter (fun u => u.role == "Supervisor" || u.role == "Manager")).map
        (fun u => (u.id, u.username)))⟩
  else if truthy userId = false then
    ⟨400, .errorB "User ID is required"⟩
  else
    match single (db.users.filter (fun u => u.id == userId.getD "")) with
    | .error _ => ⟨500, .errorB "Error fetching users"⟩
    | .ok currentUser =>
      if requestType = some "supervised" then
        if ¬ currentUser.role = "Supervisor" ∧ ¬ currentUser.role = "Manager" then
          ⟨403, .errorB "Permission denied"⟩
        else
          ⟨200, .usersB3
            ((db.users.filter (fun u => u.supervisor_id == some (userId.getD ""))).map
              (fun u => (u.id, u.username, u.role)))⟩
      else if requestType = some "all" then
        if ¬ currentUser.role = "Manager" then
          ⟨403, .errorB "Permission denied"⟩
        else
          ⟨200, .usersB4
            (db.users.map (fun u => (u.id, u.username, u.role, u.supervisor_id)))⟩
      else
        ⟨400, .errorB "Invalid request type"⟩

/-- The update payload built by the user-directory PUT: a role (only when a
Manager sent one) and/or a new supervisor assignment (`""` meaning SQL
NULL), each present or absent like the JS object `updateData`. -/
structure UserUpdatePayload where
  role : Option String := none
  supervisor_id : Option (Option String) := none
deriving DecidableEq

/-- Apply a PostgREST partial update to a user row: fields absent from the
payload keep their value. -/
def applyUserUpdate (p : UserUpdatePayload) (u : User) : User :=
  { u with
    role := p.role.getD u.role
    supervisor_id := p.supervisor_id.getD u.supervisor_id }

/-- The users table after `update(updateData).eq("id", targetUserId)`. -/
def updatedUsers (db : DB) (tid : String) (p : UserUpdatePayload) : List User :=
  db.users.map (fun u => if u.id == tid then applyUserUpdate p u else u)

/-- The `update(...).eq("id", targetUserId).select(...).single()` step of the
user-directory PUT; the projection `id, username, role, supervisor_id` is
exactly the sanitized user record. -/
def runUserUpdate (db : DB) (tid : String) (p : UserUpdatePayload) : Response × DB :=
  match single ((updatedUsers db tid p).filter (fun u => u.id == tid)) with
  | .error _ =>
    (⟨500, .errorB "Error updating user"⟩, { db with users := updatedUsers db tid p })
  | .ok u => (⟨200, .userB u.sanitize⟩, { db with users := updatedUsers db tid p })

/-- PUT of the user-directory route: change a user's role (Managers only)
and/or supervisor assignment. The body field `managerId` is destructured by
the source but never used and is omitted; the dead `if (!currentUser) → 404`
branch is unreachable as in `usersGET`. -/
def usersPUT (db : DB) (userId targetUserId roleB supervisorId : Option String) :
    Response × DB :=
  if truthy userId = false ∨ truthy targetUserId = false then
    (⟨400, .errorB "User ID and target user ID are required"⟩, db)
  else
    match single (db.users.filter (fun u => u.id == userId.getD "")) with
    | .error _ => (⟨500, .errorB "Error updating user"⟩, db)
    | .ok currentUser =>
      if truthy roleB ∧ ¬ currentUser.role = "Manager" then
        (⟨403, .errorB "Permission denied"⟩, db)
      else
        let p : UserUpdatePayload :=
          { role :=
              if truthy roleB ∧ currentUser.role = "Manager" then some (roleB.getD "")
              else none
            supervisor_id :=
              match supervisorId with
              | none => none
              | some s => some (if s = "" then none else some s) }
        if currentUser.role = "Supervisor" then
          match single (db.users.filter (fun u => u.id == targetUserId.getD "")) with
          | .error _ => (⟨500, .errorB "Error updating user"⟩, db)
          | .ok targetUser =>
            if ¬ targetUser.supervisor_id = userId then
              (⟨403, .errorB "You can only update users assigned to you"⟩, db)
            else
              runUserUpdate db (targetUserId.getD "") p
        else
          runUserUpdate db (targetUserId.getD "") p

/-- GET `/api/setup-db` (setup-db/route.ts): diagnostic probe. Against the
in-memory store the two table reads and the test writes always succeed, so
the handler reports no table or RLS issue and its catch-all 500 body
(`error` plus `details`) is unreachable. The probe's side effects are kept:
the test user (role defaulting to `User`) is inserted and every row with the
test username deleted again; if any user row exists, a test task is inserted
for the first one and every task titled `Test task` deleted again. The test
task's `created_by` column, left NULL by the source insert, is represented
by the empty string, which no handler ever compares against. -/
def setupDbGET (db : DB) (testUsername newUserId newTaskId newTaskCreatedAt : String) :
    Response × DB :=
  let usersAfterProbe :=
    (db.users ++ [(⟨newUserId, testUsername, "test_password", "User", none⟩ : User)]).filter
      (fun u => ! (u.username == testUsername))
  let dbU : DB := { db with users := usersAfterProbe }
  let dbT : DB :=
    match single (dbU.users.take 1) with
    | .error _ => dbU
    | .ok testUser =>
      let tasksAfterProbe :=
        (dbU.tasks ++ [(⟨newTaskId, testUser.id, "", "Test task", false, none,
          newTaskCreatedAt⟩ : Task)]).filter (fun t => ! (t.title == "Test task"))
      { dbU with tasks := tasksAfterProbe }
  (⟨200, .setupB true true false false none none none none⟩, dbT)

/-- Spec-side predicate: the owner of task `t` is a user whose
`supervisor_id` equals `sid`. -/
def ownerSupervisedBy (db : DB) (sid : String) (t : Task) : Bool :=
  db.users.any (fun u => u.id == t.user_id && u.supervisor_id == some sid)

/-- Modelled from the spec: the set of tasks a role-User requester should
see — exactly the tasks whose `user_id` is the requester's id. Spec-side
formulation for the refinement claim about unknown roles. -/
def specUserTasks (db : DB) (uid : String) : List Task :=
  db.tasks.filter (fun t => t.user_id == uid)

/-- The HTTP statuses the spec allows on error responses, plus 409
(returned by the signup flow for a duplicate username). -/
def errStatuses : List Nat := [400, 401, 403, 404, 409, 500]

/-- The HTTP statuses the spec text lists for error responses. -/
def claimedStatuses : List Nat := [400, 401, 403, 404, 500]

/-- An error body comes with one of the statuses of `errStatuses`. -/
def errStatusOk (r : Response) : Bool :=
  ! r.body.isError || errStatuses.contains r.status

/-- The body is a data field or an error field. -/
def bodyShapeOk (r : Response) : Bool :=
  r.body.isError || r.body.isData

/-- Example store used by counterexamples and witnesses: a supervisor `s1`
(with a task of their own), a supervised user `u1`, and an unsupervised user
`u2`, each owning one task. -/
def exDB : DB :=
  ⟨[⟨"s1", "sue", "h1", "Supervisor", none⟩,
    ⟨"u1", "ann", "h2", "User", some "s1"⟩,
    ⟨"u2", "bob", "h3", "User", none⟩],
   [⟨"t0", "s1", "s1", "sup own", false, none, "c0"⟩,
    ⟨"t1", "u1", "u1", "ann task", false, none, "c1"⟩,
    ⟨"t2", "u2", "u2", "bob task", false, none, "c2"⟩]⟩

/-- The `t1` row of `exDB` after being marked completed at time `T`. -/
def exT1done : Task := ⟨"t1", "u1", "u1", "ann task", true, some "T", "c1"⟩

/-- Stand-in for the bcrypt hash function in concrete examples. -/
def exHash (s : String) : String := "H" ++ s


/-! ### Helper lemmas -/

/-- A successful `.single()` pins the row set to exactly the returned row. -/
theorem single_eq_ok {α : Type} {l : List α} {x : α} (h : single l = .ok x) : l = [x] := by
  match l with
  | [] => simp [single] at h
  | [a] =>
    simp [single] at h
    rw [h]
  | a :: b :: rest => simp [single] at h

/-- Membership in the supervisee-id list equals the spec-side owner test. -/
theorem contains_supervised_ids (users : List User) (sid x : String) :
    ((users.filter (fun u => u.supervisor_id == some sid)).map (fun u => u.id)).contains x
      = users.any (fun u => u.id == x && u.supervisor_id == some sid) := by
  rw [Bool.eq_iff_iff]
  rw [List.elem_iff]
  simp only [List.any_eq_true, Bool.and_eq_true, beq_iff_eq, List.mem_map, List.mem_filter]
  constructor
  · rintro ⟨u, ⟨hu, hs⟩, hid⟩
    exact ⟨u, hu, hid, hs⟩
  · rintro ⟨u, hu, hid, hs⟩
    exact ⟨u, ⟨hu, hs⟩, hid⟩

/-- The supervisee branch of the listing (early `[]` when nobody is
supervised, the `.in("user_id", ids)` filter otherwise) equals one filter by
`ownerSupervisedBy`. -/
theorem supervised_filter_core (db : DB) (sid : String) :
    (if ((db.users.filter (fun u => u.supervisor_id == some sid)).map (fun u => u.id)).isEmpty
      then ([] : List Task)
      else db.tasks.filter (fun t =>
        ((db.users.filter (fun u => u.supervisor_id == some sid)).map
          (fun u => u.id)).contains t.user_id))
    = db.tasks.filter (fun t => ownerSupervisedBy db sid t) := by
  by_cases hE : ((db.users.filter (fun u => u.supervisor_id == some sid)).map
      (fun u => u.id)).isEmpty = true
  · rw [if_pos hE]
    have hnil : db.users.filter (fun u => u.supervisor_id == some sid) = [] :=
      List.map_eq_nil_iff.mp (List.isEmpty_iff.mp hE)
    have hall : ∀ u ∈ db.users, (u.supervisor_id == some sid) = false := by
      intro u hu
      have := List.filter_eq_nil_iff.mp hnil u hu
      simpa using this
    symm
    rw [List.filter_eq_nil_iff]
    intro t _
    simp only [ownerSupervisedBy, List.any_eq_true, Bool.and_eq_true, not_exists]
    rintro u ⟨hu, _, hs⟩
    rw [hall u hu] at hs
    exact Bool.false_ne_true hs
  · rw [if_neg hE]
    apply List.filter_congr
    intro t _
    exact contains_supervised_ids db.users sid t.user_id

/-- An empty update payload leaves every row unchanged, so the PUT update
step with no `completed` field maps the table to itself. -/
theorem updatedTasks_none (db : DB) (tid now : String) :
    updatedTasks db tid none now = db.tasks := by
  unfold updatedTasks
  have hfun : (fun t : Task => if t.id == tid then applyUpdate (mkPayload none now) t else t)
      = fun t => t := by
    funext t
    by_cases h : (t.id == tid) = true
    · rw [if_pos h]
      rfl
    · rw [if_neg h]
  rw [hfun]
  exact List.map_id' db.tasks

/-- Both arms of the PUT update step leave the same store. -/
theorem runUpdate_snd (db : DB) (tid : String) (c : Option Bool) (now : String) :
    (runUpdate db tid c now).2 = { db with tasks := updatedTasks db tid c now } := by
  unfold runUpdate
  cases single ((updatedTasks db tid c now).filter (fun t => t.id == tid)) <;> rfl

/-- Every row of the updated table comes from an original row agreeing on
all fields other than `completed` and `completed_at`. -/
theorem updatedTasks_frame (db : DB) (tid : String) (c : Option Bool) (now : String) :
    ∀ t' ∈ updatedTasks db tid c now,
      ∃ t, t ∈ db.tasks ∧ t.id = t'.id ∧ t.title = t'.title ∧ t.user_id = t'.user_id ∧
        t.created_by = t'.created_by ∧ t.created_at = t'.created_at := by
  intro t' ht'
  obtain ⟨t, ht, heq⟩ := List.mem_map.mp ht'
  refine ⟨t, ht, ?_⟩
  by_cases h : (t.id == tid) = true
  · rw [if_pos h] at heq
    rw [← heq]
    exact ⟨rfl, rfl, rfl, rfl, rfl⟩
  · rw [if_neg h] at heq
    rw [← heq]
    exact ⟨rfl, rfl, rfl, rfl, rfl⟩

/-- When the update step returns a row, that row carries the new flag and
the matching timestamp, and it is in the updated store. -/
theorem runUpdate_toggle (db : DB) (tid : String) (b : Bool) (now : String) (t' : Task)
    (h : (runUpdate db tid (some b) now).1.body = Body.taskB t') :
    t'.completed = b ∧ t'.completed_at = (if b then some now else none) ∧
    t' ∈ (runUpdate db tid (some b) now).2.tasks := by
  unfold runUpdate at h ⊢
  split at h
  next e heq => simp at h
  next t heq =>
    simp only [Body.taskB.injEq] at h
    subst h
    simp only [heq]
    have hfl : (updatedTasks db tid (some b) now).filter (fun u => u.id == tid) = [t] :=
      single_eq_ok heq
    have hmemf : t ∈ (updatedTasks db tid (some b) now).filter (fun u => u.id == tid) := by
      rw [hfl]
      exact List.mem_singleton_self t
    have hmem := (List.mem_filter.mp hmemf).1
    have hid : (t.id == tid) = true := (List.mem_filter.mp hmemf).2
    obtain ⟨t0, ht0, hteq⟩ := List.mem_map.mp hmem
    by_cases h0 : (t0.id == tid) = true
    · rw [if_pos h0] at hteq
      refine ⟨?_, ?_, hmem⟩
      · rw [← hteq]
        rfl
      · rw [← hteq]
        rfl
    · rw [if_neg h0] at hteq
      rw [hteq] at h0
      exact absurd hid h0

/-- The store PUT leaves behind is either untouched or the updated table. -/
theorem tasksPUT_snd (db : DB) (id : Option String) (c : Option Bool)
    (role userId : Option String) (now : String) :
    (tasksPUT db id c role userId now).2 = db ∨
    ∃ tid, id = some tid ∧
      (tasksPUT db id c role userId now).2 = { db with tasks := updatedTasks db tid c now } := by
  cases id with
  | none => exact Or.inl rfl
  | some tid =>
    unfold tasksPUT
    dsimp only
    cases hs : single (db.tasks.filter (fun t => t.id == tid)) with
    | error e => exact Or.inl rfl
    | ok task =>
      dsimp only
      by_cases h1 : role = some "User" ∧ ¬ some task.user_id = userId
      · rw [if_pos h1]
        exact Or.inl rfl
      · rw [if_neg h1]
        by_cases h2 : role = some "Supervisor"
        · rw [if_pos h2]
          cases hs2 : single (db.users.filter (fun u => u.id == task.user_id)) with
          | error e => exact Or.inl rfl
          | ok owner =>
            dsimp only
            by_cases h3 : ¬ owner.supervisor_id = userId
            · rw [if_pos h3]
              exact Or.inl rfl
            · rw [if_neg h3]
              exact Or.inr ⟨tid, rfl, runUpdate_snd db tid c now⟩
        · rw [if_neg h2]
          exact Or.inr ⟨tid, rfl, runUpdate_snd db tid c now⟩

/-- Every response body is a data field or an error field. -/
theorem bodyShapeOk_true (r : Response) : bodyShapeOk r = true := by
  unfold bodyShapeOk Body.isData
  cases h : r.body.isError <;> rfl

/-- Every error response of the tasks listing handler has an allowed status. -/
theorem tasksGET_status (db : DB) (userId role supervisorId : Option String) :
    errStatusOk (tasksGET db userId role supervisorId) = true := by
  unfold tasksGET
  try dsimp only
  repeat' split
  all_goals rfl

/-- Every error response of the task creation handler has an allowed status. -/
theorem tasksPOST_status (db : DB) (title userId role assignedUserId : Option String)
    (newId newCreatedAt : String) :
    errStatusOk (tasksPOST db title userId role assignedUserId newId newCreatedAt).1 = true := by
  unfold tasksPOST
  try dsimp only
  repeat' split
  all_goals rfl

/-- Every error response of the PUT update step has an allowed status. -/
theorem runUpdate_status (db : DB) (tid : String) (c : Option Bool) (now : String) :
    errStatusOk (runUpdate db tid c now).1 = true := by
  unfold runUpdate
  try dsimp only
  repeat' split
  all_goals rfl

/-- Every error response of the task update handler has an allowed status. -/
theorem tasksPUT_status (db : DB) (id : Option String) (c : Option Bool)
    (role userId : Option String) (now : String) :
    errStatusOk (tasksPUT db id c role userId now).1 = true := by
  unfold tasksPUT
  try dsimp only
  repeat' split
  all_goals first | rfl | apply runUpdate_status

/-- Every error response of the task delete handler has an allowed status. -/
theorem tasksDELETE_status (db : DB) (id userId role : Option String) :
    errStatusOk (tasksDELETE db id userId role).1 = true := by
  unfold tasksDELETE
  try dsimp only
  repeat' split
  all_goals rfl

/-- Every error response of the auth POST handler has an allowed status. -/
theorem authPOST_status (db : DB) (username password : Option String) (isLogin : Bool)
    (role supervisorId : Option String) (newId : String) (hashFn : String → String) :
    errStatusOk (authPOST db username password isLogin role supervisorId newId hashFn).1
      = true := by
  unfold authPOST
  try dsimp only
  repeat' split
  all_goals rfl

/-- Every error response of the auth GET handler has an allowed status. -/
theorem authGET_status (db : DB) (role userId : Option String) :
    errStatusOk (authGET db role userId) = true := by
  unfold authGET
  try dsimp only
  repeat' split
  all_goals rfl

/-- Every error response of the user-directory update step has an allowed
status. -/
theorem runUserUpdate_status (db : DB) (tid : String) (p : UserUpdatePayload) :
    errStatusOk (runUserUpdate db tid p).1 = true := by
  unfold runUserUpdate
  try dsimp only
  repeat' split
  all_goals rfl

/-- Every error response of the user-directory GET handler has an allowed
status. -/
theorem usersGET_status (db : DB) (requestType userId : Option String) :
    errStatusOk (usersGET db requestType userId) = true := by
  unfold usersGET
  try dsimp only
  repeat' split
  all_goals rfl

/-- Every error response of the user-directory PUT handler has an allowed
status. -/
theorem usersPUT_status (db : DB) (userId targetUserId roleB supervisorId : Option String) :
    errStatusOk (usersPUT db userId targetUserId roleB supervisorId).1 = true := by
  unfold usersPUT
  try dsimp only
  repeat' split
  all_goals first | rfl | apply runUserUpdate_status

/-- Every error response of the setup-db handler has an allowed status (the
probe against the in-memory store succeeds, so it reports 200). -/
theorem setupDbGET_status (db : DB)
    (testUsername newUserId newTaskId newTaskCreatedAt : String) :
    errStatusOk (setupDbGET db testUsername newUserId newTaskId newTaskCreatedAt).1 = true := by
  unfold setupDbGET
  rfl

/-! ### Claim theorems -/

/-- C1 (counterexample): the claim says a Supervisor's listing returns the
requester's own tasks together with the supervisees' tasks; in `exDB` the
supervisor `s1` owns task `t0`, yet the listing returns only the supervisee
task `t1`. -/
theorem C1_counterexample :
    ¬ (tasksGET exDB (some "s1") (some "Supervisor") none
        = ⟨200, .tasksB (exDB.tasks.filter
            (fun t => t.user_id == "s1" || ownerSupervisedBy exDB "s1" t))⟩) := by
  decide

/-- C1 (amended): for every requester with role Supervisor, the task listing
returns exactly the tasks owned by users whose `supervisor_id` equals the
requester's id; the requester's own tasks are not included (unless the
requester's own `supervisor_id` is their id). -/
theorem C1_supervisor_listing (db : DB) (uid : String) (sid : Option String) (h : uid ≠ "") :
    tasksGET db (some uid) (some "Supervisor") sid
      = ⟨200, .tasksB (db.tasks.filter (fun t => ownerSupervisedBy db uid t))⟩ := by
  unfold tasksGET
  rw [if_neg (by simp [truthy, h]), if_neg (by decide), if_pos rfl]
  simp only [Option.getD_some]
  rw [← apply_ite (fun l => ({ status := 200, body := Body.tasksB l } : Response))]
  exact congrArg (Response.mk 200) (congrArg Body.tasksB (supervised_filter_core db uid))

/-- C1 (witness): the amended statement evaluated on `exDB` for supervisor
`s1`. -/
theorem C1_witness :
    tasksGET exDB (some "s1") (some "Supervisor") none
      = ⟨200, .tasksB (exDB.tasks.filter (fun t => ownerSupervisedBy exDB "s1" t))⟩ :=
  C1_supervisor_listing exDB "s1" none (by decide)

/-- C2: a PUT or DELETE whose task id matches no row returns 500 (the thrown
PGRST116 error from `.single()`), not the 404 the spec states; `exDB` has no
task `t9`. -/
theorem C2_missing_row_behavior :
    exDB.tasks.filter (fun t => t.id == "t9") = [] ∧
    (tasksPUT exDB (some "t9") (some true) (some "Manager") (some "m1") "now").1
      = ⟨500, .errorB "Error updating task"⟩ ∧
    (tasksDELETE exDB (some "t9") (some "m1") (some "Manager")).1
      = ⟨500, .errorB "Error deleting task"⟩ := by
  refine ⟨by decide, by decide, by decide⟩

/-- C3 (counterexample): signing up with the already-taken username `sue`
produces an error response with status 409, which is outside the status set
{400, 401, 403, 404, 500} the claim lists. -/
theorem C3_counterexample :
    (authPOST exDB (some "sue") (some "pw") false none none "n1" exHash).1.body.isError
      = true ∧
    claimedStatuses.contains
      (authPOST exDB (some "sue") (some "pw") false none none "n1" exHash).1.status = false ∧
    (authPOST exDB (some "sue") (some "pw") false none none "n1" exHash).1.status = 409 := by
  refine ⟨by decide, by decide, by decide⟩

/-- C3 (amended): every error response of any HTTP handler — the tasks
route, the auth route, the user-directory route and setup-db — carries one
of the statuses 400, 401, 403, 404, 409 or 500, and every response body is
either a data field or an error field (setup-db's diagnostic report is a
multi-field data body; its catch-all error-plus-details body is unreachable
against a store whose reads and writes succeed). -/
theorem C3_amended_statuses :
    (∀ db userId role supervisorId,
      errStatusOk (tasksGET db userId role supervisorId) = true ∧
      bodyShapeOk (tasksGET db userId role supervisorId) = true) ∧
    (∀ db title userId role assignedUserId newId newCreatedAt,
      errStatusOk (tasksPOST db title userId role assignedUserId newId newCreatedAt).1 = true ∧
      bodyShapeOk (tasksPOST db title userId role assignedUserId newId newCreatedAt).1 = true) ∧
    (∀ db id c role userId now,
      errStatusOk (tasksPUT db id c role userId now).1 = true ∧
      bodyShapeOk (tasksPUT db id c role userId now).1 = true) ∧
    (∀ db id userId role,
      errStatusOk (tasksDELETE db id userId role).1 = true ∧
      bodyShapeOk (tasksDELETE db id userId role).1 = true) ∧
    (∀ db username password isLogin role supervisorId newId hashFn,
      errStatusOk (authPOST db username password isLogin role supervisorId newId hashFn).1
        = true ∧
      bodyShapeOk (authPOST db username password isLogin role supervisorId newId hashFn).1
        = true) ∧
    (∀ db role userId,
      errStatusOk (authGET db role userId) = true ∧
      bodyShapeOk (authGET db role userId) = true) ∧
    (∀ db requestType userId,
      errStatusOk (usersGET db requestType userId) = true ∧
      bodyShapeOk (usersGET db requestType userId) = true) ∧
    (∀ db userId targetUserId roleB supervisorId,
      errStatusOk (usersPUT db userId targetUserId roleB supervisorId).1 = true ∧
      bodyShapeOk (usersPUT db userId targetUserId roleB supervisorId).1 = true) ∧
    (∀ db testUsername newUserId newTaskId newTaskCreatedAt,
      errStatusOk (setupDbGET db testUsername newUserId newTaskId newTaskCreatedAt).1
        = true ∧
      bodyShapeOk (setupDbGET db testUsername newUserId newTaskId newTaskCreatedAt).1
        = true) := by
  refine ⟨?_, ?_, ?_, ?_, ?_, ?_, ?_, ?_, ?_⟩
  · intro db a b c
    exact ⟨tasksGET_status db a b c, bodyShapeOk_true _⟩
  · intro db a b c d e f
    exact ⟨tasksPOST_status db a b c d e f, bodyShapeOk_true _⟩
  · intro db a b c d e
    exact ⟨tasksPUT_status db a b c d e, bodyShapeOk_true _⟩
  · intro db a b c
    exact ⟨tasksDELETE_status db a b c, bodyShapeOk_true _⟩
  · intro db a b c d e f g
    exact ⟨authPOST_status db a b c d e f g, bodyShapeOk_true _⟩
  · intro db a b
    exact ⟨authGET_status db a b, bodyShapeOk_true _⟩
  · intro db a b
    exact ⟨usersGET_status db a b, bodyShapeOk_true _⟩
  · intro db a b c d
    exact ⟨usersPUT_status db a b c d, bodyShapeOk_true _⟩
  · intro db a b c d
    exact ⟨setupDbGET_status db a b c d, bodyShapeOk_true _⟩

/-- C3 (witness): the amended statement evaluated on `exDB` for one listing
request. -/
theorem C3_witness :
    errStatusOk (tasksGET exDB none none none) = true ∧
    bodyShapeOk (tasksGET exDB none none none) = true :=
  C3_amended_statuses.1 exDB none none none

/-- C4: whenever PUT returns a task row after a request carrying a
`completed` value, that row has the new flag with `completed_at` set to the
update timestamp exactly when the flag became true, and the row is in the
resulting store; flag and timestamp come from the one update payload. -/
theorem C4_toggle_consistent (db : DB) (id : Option String) (b : Bool)
    (role userId : Option String) (now : String) (t : Task)
    (h : (tasksPUT db id (some b) role userId now).1.body = Body.taskB t) :
    t.completed = b ∧ t.completed_at = (if b then some now else none) ∧
    t ∈ (tasksPUT db id (some b) role userId now).2.tasks := by
  cases id with
  | none => simp [tasksPUT] at h
  | some tid =>
    unfold tasksPUT at h ⊢
    dsimp only at h ⊢
    cases hs : single (db.tasks.filter (fun u => u.id == tid)) with
    | error e =>
      rw [hs] at h
      simp at h
    | ok task =>
      rw [hs] at h
      dsimp only at h ⊢
      by_cases h1 : role = some "User" ∧ ¬ some task.user_id = userId
      · rw [if_pos h1] at h
        simp at h
      · rw [if_neg h1] at h ⊢
        by_cases h2 : role = some "Supervisor"
        · rw [if_pos h2] at h ⊢
          cases hs2 : single (db.users.filter (fun u => u.id == task.user_id)) with
          | error e =>
            rw [hs2] at h
            simp at h
          | ok owner =>
            rw [hs2] at h
            dsimp only at h ⊢
            by_cases h3 : ¬ owner.supervisor_id = userId
            · rw [if_pos h3] at h
              simp at h
            · rw [if_neg h3] at h ⊢
              exact runUpdate_toggle db tid b now t h
        · rw [if_neg h2] at h ⊢
          exact runUpdate_toggle db tid b now t h

/-- C4 (witness): marking task `t1` of `exDB` completed at time `T` yields
the consistent pair. -/
theorem C4_witness :
    exT1done.completed = true ∧ exT1done.completed_at = (if true then some "T" else none) ∧
    exT1done ∈ (tasksPUT exDB (some "t1") (some true) (some "User") (some "u1") "T").2.tasks :=
  C4_toggle_consistent exDB (some "t1") true (some "User") (some "u1") "T" exT1done (by decide)

/-- C5: a role-User delete request against a task owned by someone else
returns the 403 permission error and leaves the store unchanged. -/
theorem C5_user_delete_denied (db : DB) (tid uid : String) (task : Task)
    (htid : tid ≠ "") (huid : uid ≠ "")
    (hmem : db.tasks.filter (fun t => t.id == tid) = [task])
    (howner : task.user_id ≠ uid) :
    tasksDELETE db (some tid) (some uid) (some "User")
      = (⟨403, .errorB "You can only delete your own tasks"⟩, db) := by
  unfold tasksDELETE
  rw [if_neg (by simp [truthy, htid, huid])]
  dsimp only [Option.getD_some]
  rw [hmem]
  dsimp only [single]
  rw [if_pos ⟨rfl, howner⟩]

/-- C5 (witness): user `u1` of `exDB` cannot delete `u2`'s task `t2`. -/
theorem C5_witness :
    tasksDELETE exDB (some "t2") (some "u1") (some "User")
      = (⟨403, .errorB "You can only delete your own tasks"⟩, exDB) :=
  C5_user_delete_denied exDB "t2" "u1" ⟨"t2", "u2", "u2", "bob task", false, none, "c2"⟩
    (by decide) (by decide) (by decide) (by decide)

/-- C6: a Manager's listing narrowed by a truthy `supervisorFilter` S is
exactly the tasks whose owner has `supervisor_id` S, regardless of creator;
with no filter it is all tasks. -/
theorem C6_manager_listing (db : DB) (uid : String) (h : uid ≠ "") (sid : Option String) :
    tasksGET db (some uid) (some "Manager") sid
      = ⟨200, .tasksB (if truthy sid then
            db.tasks.filter (fun t => ownerSupervisedBy db (sid.getD "") t)
          else db.tasks)⟩ := by
  unfold tasksGET
  rw [if_neg (by simp [truthy, h]), if_neg (by decide), if_neg (by decide), if_pos rfl]
  by_cases hs : truthy sid = true
  · rw [if_pos hs, if_pos hs]
    rw [← apply_ite (fun l => ({ status := 200, body := Body.tasksB l } : Response))]
    exact congrArg (Response.mk 200)
      (congrArg Body.tasksB (supervised_filter_core db (sid.getD "")))
  · rw [if_neg hs, if_neg hs]

/-- C6 (witness): manager `m1` listing `exDB` with filter `s1`. -/
theorem C6_witness :
    tasksGET exDB (some "m1") (some "Manager") (some "s1")
      = ⟨200, .tasksB (if truthy (some "s1") then
            exDB.tasks.filter (fun t => ownerSupervisedBy exDB (Option.getD (some "s1") "") t)
          else exDB.tasks)⟩ :=
  C6_manager_listing exDB "m1" (by decide) (some "s1")

/-- C7: a role-User listing returns exactly the tasks whose `user_id` is the
requester's id. -/
theorem C7_user_listing (db : DB) (uid : String) (sid : Option String) (h : uid ≠ "") :
    tasksGET db (some uid) (some "User") sid
      = ⟨200, .tasksB (db.tasks.filter (fun t => t.user_id == uid))⟩ := by
  unfold tasksGET
  simp [truthy, h]

/-- C7 (witness): user `u1` listing `exDB`. -/
theorem C7_witness :
    tasksGET exDB (some "u1") (some "User") none
      = ⟨200, .tasksB (exDB.tasks.filter (fun t => t.user_id == "u1"))⟩ :=
  C7_user_listing exDB "u1" none (by decide)

/-- C8: a signup carrying a `supervisorId` whose referenced user is missing
or lacks the Supervisor/Manager role is rejected with 400 and creates no
user row. -/
theorem C8_signup_bad_supervisor (db : DB) (uname pw sid : String) (role : Option String)
    (nid : String) (hf : String → String)
    (hu : uname ≠ "") (hp : pw ≠ "") (hs : sid ≠ "")
    (hnew : db.users.filter (fun u => u.username == uname) = [])
    (hbad : (db.users.filter (fun u => u.id == sid)).all
        (fun u => !(u.role == "Supervisor") && !(u.role == "Manager")) = true) :
    (authPOST db (some uname) (some pw) false role (some sid) nid hf).1.status = 400 ∧
    (authPOST db (some uname) (some pw) false role (some sid) nid hf).2 = db := by
  unfold authPOST
  rw [if_neg (by simp [truthy, hu, hp])]
  try simp only [Option.getD_some]
  rw [if_neg Bool.false_ne_true]
  rw [hnew, show single ([] : List User) = Except.error "PGRST116" from rfl]
  dsimp only
  rw [if_pos (by simp [truthy, hs])]
  try simp only [Option.getD_some]
  cases hsng : single (db.users.filter (fun u => u.id == sid)) with
  | error e => exact ⟨rfl, rfl⟩
  | ok sup =>
    have hfl := single_eq_ok hsng
    rw [hfl] at hbad
    simp only [List.all_cons, List.all_nil, Bool.and_true, Bool.and_eq_true,
      Bool.not_eq_true', beq_eq_false_iff_ne, ne_eq] at hbad
    dsimp only
    rw [if_pos ⟨hbad.1, hbad.2⟩]
    exact ⟨rfl, rfl⟩

/-- C8 (witness): signup as `carl` with supervisor `u2` (a plain User) on
`exDB` is rejected and the store is unchanged. -/
theorem C8_witness :
    (authPOST exDB (some "carl") (some "pw") false none (some "u2") "n1" exHash).1.status
      = 400 ∧
    (authPOST exDB (some "carl") (some "pw") false none (some "u2") "n1" exHash).2 = exDB :=
  C8_signup_bad_supervisor exDB "carl" "pw" "u2" none "n1" exHash
    (by decide) (by decide) (by decide) (by decide) (by decide)

/-- C9: a PUT changes at most `completed` and `completed_at` of task rows
(id, title, user_id, created_by and created_at are preserved), and a request
without a `completed` field leaves the store unchanged in all fields. -/
theorem C9_update_frame (db : DB) (id : Option String) (c : Option Bool)
    (role userId : Option String) (now : String) :
    (∀ t' ∈ (tasksPUT db id c role userId now).2.tasks,
       ∃ t, t ∈ db.tasks ∧ t.id = t'.id ∧ t.title = t'.title ∧ t.user_id = t'.user_id ∧
         t.created_by = t'.created_by ∧ t.created_at = t'.created_at) ∧
    (c = none → (tasksPUT db id c role userId now).2 = db) := by
  rcases tasksPUT_snd db id c role userId now with h | ⟨tid, hid, h⟩
  · rw [h]
    refine ⟨?_, fun _ => rfl⟩
    intro t' ht'
    exact ⟨t', ht', rfl, rfl, rfl, rfl, rfl⟩
  · rw [h]
    constructor
    · intro t' ht'
      exact updatedTasks_frame db tid c now t' ht'
    · rintro rfl
      rw [updatedTasks_none]

/-- C9 (witness): a PUT on `exDB` omitting `completed` leaves the store
untouched. -/
theorem C9_witness :
    (tasksPUT exDB (some "t1") none (some "User") (some "u1") "T").2 = exDB :=
  (C9_update_frame exDB (some "t1") none (some "User") (some "u1") "T").2 rfl

/-- C10: a listing whose role is none of User, Supervisor, Manager (absent
included) behaves exactly like role User, returning the tasks whose
`user_id` is the given id. -/
theorem C10_default_role (db : DB) (uid : String) (role sid : Option String)
    (h0 : uid ≠ "") (h1 : role ≠ some "User") (h2 : role ≠ some "Supervisor")
    (h3 : role ≠ some "Manager") :
    tasksGET db (some uid) role sid = tasksGET db (some uid) (some "User") sid ∧
    tasksGET db (some uid) role sid = ⟨200, .tasksB (specUserTasks db uid)⟩ := by
  constructor
  · unfold tasksGET
    simp [truthy, h0, h1, h2, h3]
  · unfold tasksGET specUserTasks
    simp [truthy, h0, h1, h2, h3]

/-- C10 (witness): the unknown role `Ghost` lists exactly like role User on
`exDB`. -/
theorem C10_witness :
    (tasksGET exDB (some "u1") (some "Ghost") none
      = tasksGET exDB (some "u1") (some "User") none) ∧
    tasksGET exDB (some "u1") (some "Ghost") none = ⟨200, .tasksB (specUserTasks exDB "u1")⟩ :=
  C10_default_role exDB "u1" (some "Ghost") none (by decide) (by decide) (by decide)
    (by decide)

end TM
